import Mathlib

/-!
Shallow embedding of the chat-session / episodic-memory layer of the
`simple-multi-chat` repository (source files `api.py`, `simple_multi_chat.py`,
`settings.py`).

Modelling conventions:
* Python dict payloads are association lists of `Val` scalars with unique keys
  (`dictSet` replaces in place, mirroring CPython's order-preserving update).
* The vector store (qdrant) is a pair of point lists (`chat` and `episodic`
  collections) plus a counter supplying the server-assigned point ids;
  `scroll` returns points in store order, `retrieve(ids=[x])[0]` is the head
  of the matching points (an empty result makes the Python `[0]` raise, which
  is modelled as `Except.error`).
* Timestamps (`time.time()`) are integers supplied as a `now` parameter.
* The embedder is an opaque function parameter `embed`; the LLM used for
  auto-naming is an opaque `llm` parameter that can raise (`Except.error`).
* Fallible Python code (uncaught `IndexError` / `KeyError`, HTTP 400) is
  returned as `Except`.
-/

namespace SimpleMultiChat

/-- JSON-ish scalar payload value (Python `str` / int / bool / `None`).
Numeric timestamps are modelled as integers. -/
inductive Val where
  | str (s : String)
  | int (n : Int)
  | bool (b : Bool)
  | null
deriving DecidableEq, Repr

/-- Python truthiness of a payload value. -/
def Val.truthy : Val → Bool
  | .str s => !(s == "")
  | .int n => !(n == 0)
  | .bool b => b
  | .null => false

/-- Python `str(...)` rendering of a payload value. -/
def Val.pystr : Val → String
  | .str s => s
  | .int n => toString n
  | .bool b => if b then "True" else "False"
  | .null => "None"

/-- A Python dict payload: ordered association list with unique keys. -/
abbrev Dict := List (String × Val)

/-- `d.get(k)` / `d[k]`: value of the first binding of `k`, if any. -/
def dictGet : Dict → String → Option Val
  | [], _ => none
  | kv :: t, k => if kv.1 == k then some kv.2 else dictGet t k

/-- `d.get(k, v)`. -/
def dictGetD (d : Dict) (k : String) (v : Val) : Val := (dictGet d k).getD v

/-- `k in d`. -/
def dictContains (d : Dict) (k : String) : Bool := (dictGet d k).isSome

/-- `d[k] = v`: replace the existing binding in place, else append. -/
def dictSet : Dict → String → Val → Dict
  | [], k, v => [(k, v)]
  | kv :: t, k, v => if kv.1 == k then (k, v) :: t else kv :: dictSet t k v

/-- `d.update(e)`: set every binding of `e` into `d`, in order. -/
def dictUpdate (d e : Dict) : Dict := e.foldl (fun acc kv => dictSet acc kv.1 kv.2) d

/-- Python `str.strip()` (no argument): drop leading and trailing
whitespace. Defined over the character list so that it reduces in the
kernel. -/
def pyStrip (s : String) : String :=
  String.mk (((s.toList.dropWhile Char.isWhitespace).reverse.dropWhile
    Char.isWhitespace).reverse)

/-- Truthiness of a Python `dict.get(k)` result (`None` when missing). -/
def optTruthy : Option Val → Bool
  | none => false
  | some v => v.truthy

/-- A stored qdrant point: id, `payload["page_content"]`, `payload["metadata"]`
and the embedding vector. -/
structure Point where
  id : String
  page_content : Val
  payload_metadata : Dict
  vector : List Int
deriving DecidableEq, Repr

/-- The two collections this layer touches, plus the id counter used for
server-assigned point ids. -/
structure Store where
  chat : List Point
  episodic : List Point
  nextId : Nat
deriving DecidableEq, Repr

/-- `MemoryPoint` pydantic response model of `api.py`. -/
structure MemoryPoint where
  content : Val
  metadata : Dict
  id : String
  vector : List Int
deriving DecidableEq, Repr

/-- A qdrant `Filter` built by `_qdrant_filter_from_dict`: every listed
metadata key must match the given value. -/
def matchesFilter (flt : Dict) (m : Dict) : Bool :=
  flt.all (fun kv => dictGet m kv.1 == some kv.2)

/-- `vector_db.scroll(collection_name="chat", scroll_filter=..., limit=...)`. -/
def scrollChat (st : Store) (flt : Dict) (limit : Nat) : List Point :=
  (st.chat.filter (fun p => matchesFilter flt p.payload_metadata)).take limit

/-- `vector_db.scroll(collection_name="episodic", ...)`. -/
def scrollEpisodic (st : Store) (flt : Dict) (limit : Nat) : List Point :=
  (st.episodic.filter (fun p => matchesFilter flt p.payload_metadata)).take limit

/-- `vector_db.retrieve(collection_name=..., ids=[pid])` followed by taking
the head of the returned list (qdrant omits missing ids). -/
def retrieveFirst (pts : List Point) (pid : String) : Option Point :=
  (pts.filter (fun p => p.id == pid)).head?

/-- `collections["chat"].add_point(content, vector, metadata)`: insert a new
point with a server-assigned id and return it. -/
def addChatPoint (content : Val) (vector : List Int) (md : Dict) (st : Store) :
    Point × Store :=
  let pt : Point := ⟨toString st.nextId, content, md, vector⟩
  (pt, { st with chat := st.chat ++ [pt], nextId := st.nextId + 1 })

/-- `vector_db.overwrite_payload(collection_name="chat", payload=..., points=[pid])`. -/
def overwriteChatPayload (st : Store) (pid : String) (pc : Val) (md : Dict) : Store :=
  { st with chat := st.chat.map (fun p =>
      if p.id == pid then { p with page_content := pc, payload_metadata := md } else p) }

/-- `vector_db.overwrite_payload(collection_name="episodic", ...)`. -/
def overwriteEpisodicPayload (st : Store) (pid : String) (pc : Val) (md : Dict) : Store :=
  { st with episodic := st.episodic.map (fun p =>
      if p.id == pid then { p with page_content := pc, payload_metadata := md } else p) }

/-! ## `create_chat` (api.py, `/createChat`)

The endpoint's first statements destructure the request body:
`reqContent` is `metadata.get("content", "")` and `reqNested` is
`metadata.get("metadata", {})` (the nested dict sent by the frontend). -/

/-- The `qdrant_payload_metadata` dict that `create_chat` builds: server
defaults, then `update(nested_metadata_from_frontend)`, then the `name`,
`deleted` and `content` fix-ups. -/
def createPayload (user : String) (now : Int) (default_chat_name : String)
    (reqContent : Val) (reqNested : Dict) : Dict :=
  let d0 : Dict := [("source", Val.str user), ("when", Val.int now), ("content", reqContent)]
  let d1 := dictUpdate d0 reqNested
  let d2 := if !(optTruthy (dictGet d1 "name"))
            then dictSet d1 "name" (Val.str default_chat_name) else d1
  let d3 := if !(dictContains d2 "deleted")
            then dictSet d2 "deleted" (Val.bool false) else d2
  let cfe := match dictGet d3 "content" with
    | none => dictGetD d3 "name" Val.null
    | some v => if !v.truthy || (pyStrip v.pystr == "") then dictGetD d3 "name" Val.null else v
  dictSet d3 "content" cfe

/-- The `content_for_embedding` chosen by `create_chat` (frontend content,
else the chat's name). -/
def createContentForEmbedding (user : String) (now : Int) (default_chat_name : String)
    (reqContent : Val) (reqNested : Dict) : Val :=
  dictGetD (createPayload user now default_chat_name reqContent reqNested) "content" Val.null

/-- The id set `deleted_chat_ids` and the surviving `matched_points` count of
`create_chat`'s cap check. -/
def matchedPointsCount (points : List Point) : Nat :=
  let deletedIds := (points.filter
      (fun p => (dictGetD p.payload_metadata "deleted" (Val.bool false)).truthy)).map Point.id
  (points.filter (fun p => !(deletedIds.contains p.id))).length

/-- `create_chat` endpoint: scrolls all of the caller's chat points, applies
the `max_chats` cap only when that scroll is non-empty, and inserts/returns
the new point. `Except.error` carries the HTTP 400 detail string. -/
def create_chat (embed : Val → List Int) (user : String) (now : Int)
    (max_chats : Int) (default_chat_name : String)
    (reqContent : Val) (reqNested : Dict) (st : Store) :
    Except String (MemoryPoint × Store) :=
  let md := createPayload user now default_chat_name reqContent reqNested
  let cfe := createContentForEmbedding user now default_chat_name reqContent reqNested
  let points := scrollChat st [("source", Val.str user)] 10000
  if points.isEmpty then
    let embedding := embed cfe
    let (pt, st') := addChatPoint cfe embedding md st
    Except.ok (⟨pt.page_content, pt.payload_metadata, pt.id, pt.vector⟩, st')
  else
    if max_chats ≠ -1 ∧ (matchedPointsCount points : Int) ≥ max_chats then
      Except.error ("Too many chats created, you can have a maximum of " ++ toString max_chats)
    else
      let embedding := embed cfe
      let (pt, st') := addChatPoint cfe embedding md st
      Except.ok (⟨pt.page_content, pt.payload_metadata, pt.id, pt.vector⟩, st')

/-! ## `fast_reply` (simple_multi_chat.py): the session resolver -/

/-- Python `metadata.get("name") != default_chat_name` comparison (a missing
key yields `None`, which never equals a string). -/
def pyEqStr (o : Option Val) (s : String) : Bool := o == some (Val.str s)

/-- One iteration of the resolver's `for p in points` loop: skip deleted
points and points whose name is not the default, otherwise record the id. -/
def fastReplyStep (default_chat_name : String) (acc : Option String) (p : Point) :
    Option String :=
  if (dictGetD p.payload_metadata "deleted" (Val.bool false)).truthy then acc
  else if !(pyEqStr (dictGet p.payload_metadata "name") default_chat_name) then acc
  else some p.id

/-- The metadata dict the resolver builds for an implicitly created chat. -/
def fastReplyPayload (user : String) (now : Int) (default_chat_name : String) : Dict :=
  let d0 : Dict := [("source", Val.str user), ("when", Val.int now), ("content", Val.str "")]
  let d1 := dictUpdate d0 [("name", Val.str default_chat_name), ("deleted", Val.bool false)]
  let d2 := if !(dictContains d1 "deleted")
            then dictSet d1 "deleted" (Val.bool false) else d1
  let cfe := match dictGet d2 "content" with
    | none => dictGetD d2 "name" Val.null
    | some v => if !v.truthy || (pyStrip v.pystr == "") then dictGetD d2 "name" Val.null else v
  dictSet d2 "content" cfe

/-- The branch of the `fast_reply` hook taken when the inbound message has no
`chat_id`: scan the caller's chat points for a non-deleted default-named one
(the loop keeps overwriting, so the last match survives), else create a new
default chat.  Returns the resolved `chat_id` stored into the working memory
and the resulting store. -/
def fast_reply (embed : Val → List Int) (user : String) (now : Int)
    (default_chat_name : String) (st : Store) : String × Store :=
  let md := fastReplyPayload user now default_chat_name
  let cfe := dictGetD md "content" Val.null
  let points := scrollChat st [("source", Val.str user)] 10000
  let acc := points.foldl (fastReplyStep default_chat_name) none
  match acc with
  | some cid => (cid, st)
  | none =>
    let (pt, st') := addChatPoint cfe (embed cfe) md st
    (pt.id, st')

/-! ## `before_cat_sends_message` (simple_multi_chat.py): the turn reconciler -/

/-- Strip all leading and trailing occurrences of `c` (Python `str.strip(c)`). -/
def stripChar (c : Char) (s : String) : String :=
  String.mk (((s.toList.dropWhile (· == c)).reverse.dropWhile (· == c)).reverse)

/-- The double-quote and single-quote characters (written via their code
points). -/
def dqChar : Char := Char.ofNat 34

def sqChar : Char := Char.ofNat 39

/-- `generated_title.strip()` then `.strip(dq)` then `.strip(sq)` where `dq`
and `sq` are the double- and single-quote characters. -/
def cleanTitle (s : String) : String := stripChar sqChar (stripChar dqChar (pyStrip s))

/-- The meta-prompt of the auto-naming sub-step. -/
def autoNamePrompt (user_text bot_text : String) : String :=
  "\n            Summarize the following conversation with a short, descriptive title of 5 words or less.\n            Respond only with the title, without any introductory text, explanation, or quotes.\n\n            Conversation:\n            - User: \"" ++ user_text ++ "\"\n            - Bot: \"" ++ bot_text ++ "\"\n            "

/-- Body of the auto-naming `try` block: retrieve the chat (the Python `[0]`
raises when the id is absent), and when its name is still the default, ask the
LLM for a title and overwrite the name when the sanitized title is non-empty.
`Except.error` is any exception inside the block. -/
def autoNameInner (llm : String → Except Unit String) (default_chat_name : String)
    (chat_id user_text bot_text : String) (st : Store) : Except Unit Store :=
  match retrieveFirst st.chat chat_id with
  | none => Except.error ()
  | some chat_point =>
    let chat_metadata := chat_point.payload_metadata
    let chat_name := dictGetD chat_metadata "name" (Val.str "")
    if chat_name == Val.str default_chat_name then
      match llm (autoNamePrompt user_text bot_text) with
      | Except.error e => Except.error e
      | Except.ok generated_title =>
        if !(generated_title == "") then
          let clean_title := cleanTitle generated_title
          if !(clean_title == "") then
            Except.ok (overwriteChatPayload st chat_point.id chat_point.page_content
              (dictSet chat_metadata "name" (Val.str clean_title)))
          else Except.ok st
        else Except.ok st
    else Except.ok st

/-- The episodic filter of the reconciler:
`{"chat_id": ..., "user_id": ..., "text": ...}`. -/
def turnQuery (st : Store) (user chat_id user_text : String) : List Point :=
  scrollEpisodic st
    [("chat_id", Val.str chat_id), ("user_id", Val.str user), ("text", Val.str user_text)] 10

/-- Descending sort by `metadata["when"]` (Python
`sorted(points, key=..., reverse=True)`, a stable sort).  Points written by
this layer always carry an integer `when`; a malformed value sorts as 0. -/
def whenOf (m : Dict) : Int :=
  match dictGet m "when" with
  | some (Val.int n) => n
  | _ => 0

/-- Relation realising `sorted(..., key=when, reverse=True)`. -/
def whenDesc (p q : Point) : Prop := whenOf q.payload_metadata ≤ whenOf p.payload_metadata

instance : DecidableRel whenDesc := fun p q => Int.decLe _ _

instance : IsTotal Point whenDesc := ⟨fun p q => le_total _ _⟩

instance : IsTrans Point whenDesc := ⟨fun _ _ _ h1 h2 => le_trans h2 h1⟩

def sortDescByWhen (pts : List Point) : List Point := List.insertionSort whenDesc pts

/-- The mandatory reconciliation steps of `before_cat_sends_message` (lines
92-138): locate the open episodic record, set its `bot` field, then update the
chat's `last_update`.  An empty query returns the message with no store write;
a missing chat id makes the uncaught Python `[0]` raise (`Except.error`). -/
def before_main (user chat_id user_text bot_text : String) (now : Int) (st : Store) :
    Except Unit (String × Store) :=
  let points := turnQuery st user chat_id user_text
  if points.isEmpty then Except.ok (bot_text, st)
  else
    match sortDescByWhen points with
    | [] => Except.error ()
    | thePoint :: _ =>
      let metadata := thePoint.payload_metadata
      let page_content := if thePoint.page_content == Val.null
                          then Val.str "" else thePoint.page_content
      let updated_metadata := dictSet metadata "bot" (Val.str bot_text)
      let st1 := overwriteEpisodicPayload st thePoint.id page_content updated_metadata
      match retrieveFirst st1.chat chat_id with
      | none => Except.error ()
      | some chat =>
        let um := dictSet chat.payload_metadata "last_update" (Val.int now)
        Except.ok (bot_text, overwriteChatPayload st1 chat.id chat.page_content um)

/-- The whole `before_cat_sends_message` hook: the auto-naming sub-step runs
first with every exception caught (leaving the store unchanged), then the
mandatory reconciliation runs. -/
def before_cat_sends_message (llm : String → Except Unit String)
    (default_chat_name : String) (user chat_id user_text bot_text : String)
    (now : Int) (st : Store) : Except Unit (String × Store) :=
  let st1 := match autoNameInner llm default_chat_name chat_id user_text bot_text st with
    | Except.ok s => s
    | Except.error _ => st
  before_main user chat_id user_text bot_text now st1

/-! ## `changeNameChat` (api.py) -/

/-- Rename endpoint.  `vector_db.retrieve(...)` returns only existing points,
so the Python `[0]` raises `IndexError` on a missing id (modelled as
`Except.error`); a returned record object is always truthy, so the trailing
`return False` of the source is reachable only through the ownership check. -/
def changeNameChat (chat_id name user : String) (st : Store) :
    Except Unit (Bool × Store) :=
  match retrieveFirst st.chat chat_id with
  | none => Except.error ()
  | some point =>
    let updated_metadata := point.payload_metadata
    match dictGet updated_metadata "source" with
    | none => Except.error ()
    | some src =>
      if !(src == Val.str user) then Except.ok (false, st)
      else
        let u2 := dictSet updated_metadata "name" (Val.str name)
        Except.ok (true, overwriteChatPayload st point.id point.page_content u2)

/-! ## `del_chat` (api.py) -/

/-- Delete endpoint.  qdrant's point deletion is idempotent (deleting an
absent id succeeds), so the only exceptions are store-level failures; the
`storeRaises` flag models the underlying client raising on the call, which the
`except` clause turns into `False`. -/
def del_chat (storeRaises : Bool) (user chat_id : String) (st : Store) :
    Bool × Store :=
  if storeRaises then (false, st)
  else
    let st1 := { st with chat := st.chat.filter (fun p => !(p.id == chat_id)) }
    let st2 := { st1 with episodic := st1.episodic.filter (fun p =>
        !(matchesFilter [("user_id", Val.str user), ("chat_id", Val.str chat_id)]
          p.payload_metadata)) }
    (true, st2)

/-! ## History reconstruction (api.py, shared tail of
`get_points_metadata_only_message` and `giveAll`) -/

/-- The `{"id": ..., "metadata": ...}` dicts of `matched_points`. -/
structure MatchedPoint where
  id : String
  metadata : Dict
deriving DecidableEq, Repr

inductive HistEntry where
  | user (text : Val)
  | assistant (text : Val)
deriving DecidableEq, Repr

/-- Relation realising `matched_points.sort(key=lambda x: x['metadata']['when'])`. -/
def whenAsc (p q : MatchedPoint) : Prop := whenOf p.metadata ≤ whenOf q.metadata

instance : DecidableRel whenAsc := fun p q => Int.decLe _ _

instance : IsTotal MatchedPoint whenAsc := ⟨fun p q => le_total _ _⟩

instance : IsTrans MatchedPoint whenAsc := ⟨fun _ _ _ h1 h2 => le_trans h1 h2⟩

def sortByWhenAsc (pts : List MatchedPoint) : List MatchedPoint :=
  List.insertionSort whenAsc pts

/-- Loop body of the history reconstruction: a user-turn entry then an
assistant-turn entry, each guarded exactly as in the source (`bot_message` and
`message` default to `None` / `""` when either key is missing). -/
def historyEntriesOf (m : Dict) : List HistEntry :=
  let bm : Val × Val :=
    if dictContains m "bot" && dictContains m "text" then
      (dictGetD m "bot" Val.null, dictGetD m "text" Val.null)
    else (Val.null, Val.str "")
  let bot_message := bm.1
  let message := bm.2
  (if !(message == Val.str "") then [HistEntry.user message] else []) ++
  (if !(bot_message == Val.null) then [HistEntry.assistant bot_message] else [])

/-- Sort the matched points ascending by `when` and emit the working-memory
history entries in order. -/
def build_history (pts : List MatchedPoint) : List HistEntry :=
  (sortByWhenAsc pts).flatMap (fun mp => historyEntriesOf mp.metadata)

/-! ## Reachable store states

One constructor per store-mutating operation of the layer.  `storeEpisodic`
is the host's own memory-write pipeline as shaped by the
`before_cat_stores_episodic_memory` hook (metadata gains `user_id`,
`chat_id`, `text` = page content and `bot` = `""`). -/

/-- The episodic point inserted by the host pipeline for one user turn. -/
def hostStoreEpisodic (embed : Val → List Int) (user chat_id content : String)
    (now : Int) (st : Store) : Store :=
  let md : Dict := [("source", Val.str user), ("when", Val.int now),
                    ("user_id", Val.str user), ("chat_id", Val.str chat_id),
                    ("text", Val.str content), ("bot", Val.str "")]
  { st with
    episodic := st.episodic ++ [⟨toString st.nextId, Val.str content, md, embed (Val.str content)⟩],
    nextId := st.nextId + 1 }

/-- Stores reachable from the empty store through the layer's operations,
under a fixed configuration (`max_chats`, `default_chat_name`). -/
inductive Reach (embed : Val → List Int) (max_chats : Int) (default_chat_name : String) :
    Store → Prop where
  | init : Reach embed max_chats default_chat_name ⟨[], [], 0⟩
  | create (user : String) (now : Int) (rc : Val) (rn : Dict) (st : Store)
      (pt : MemoryPoint) (st' : Store) :
      Reach embed max_chats default_chat_name st →
      create_chat embed user now max_chats default_chat_name rc rn st = Except.ok (pt, st') →
      Reach embed max_chats default_chat_name st'
  | resolve (user : String) (now : Int) (st : Store) (cid : String) (st' : Store) :
      Reach embed max_chats default_chat_name st →
      fast_reply embed user now default_chat_name st = (cid, st') →
      Reach embed max_chats default_chat_name st'
  | rename (chat_id name user : String) (st : Store) (b : Bool) (st' : Store) :
      Reach embed max_chats default_chat_name st →
      changeNameChat chat_id name user st = Except.ok (b, st') →
      Reach embed max_chats default_chat_name st'
  | delete (user chat_id : String) (st : Store) (b : Bool) (st' : Store) :
      Reach embed max_chats default_chat_name st →
      del_chat false user chat_id st = (b, st') →
      Reach embed max_chats default_chat_name st'
  | reconcile (llm : String → Except Unit String) (user chat_id user_text bot_text : String)
      (now : Int) (st : Store) (m : String) (st' : Store) :
      Reach embed max_chats default_chat_name st →
      before_cat_sends_message llm default_chat_name user chat_id user_text bot_text now st
        = Except.ok (m, st') →
      Reach embed max_chats default_chat_name st'
  | storeEpisodic (user chat_id content : String) (now : Int) (st : Store) :
      Reach embed max_chats default_chat_name st →
      Reach embed max_chats default_chat_name (hostStoreEpisodic embed user chat_id content now st)

/-- The spec's notion of an owner's active-session count: stored chat points
whose `source` is the owner and whose `deleted` flag is `false` (or absent,
as every point written by this layer sets it explicitly). -/
def specActiveCount (st : Store) (owner : String) : Nat :=
  ((st.chat.filter (fun p => dictGet p.payload_metadata "source" == some (Val.str owner)))
    |>.filter (fun p => dictGetD p.payload_metadata "deleted" (Val.bool false) == Val.bool false))
    |>.length

/-! ## Basic lemmas on the store model -/

theorem dictGet_dictSet_self (d : Dict) (k : String) (v : Val) :
    dictGet (dictSet d k v) k = some v := by
  induction d with
  | nil => simp [dictSet, dictGet]
  | cons kv t ih =>
    by_cases h : kv.1 = k
    · simp [dictSet, dictGet, h]
    · simp only [dictSet, dictGet, beq_iff_eq, h, if_false, if_neg h]
      exact ih

theorem dictGet_dictSet_ne (d : Dict) (k k' : String) (v : Val) (h : k' ≠ k) :
    dictGet (dictSet d k v) k' = dictGet d k' := by
  induction d with
  | nil =>
    simp only [dictSet, dictGet, beq_iff_eq]
    rw [if_neg (fun hh => h hh.symm)]
  | cons kv t ih =>
    by_cases hk : kv.1 = k
    · subst hk
      have hne : kv.1 ≠ k' := fun hh => h hh.symm
      simp [dictSet, dictGet, hne]
    · simp only [dictSet, beq_iff_eq, hk, if_false, dictGet]
      by_cases hk' : kv.1 = k'
      · simp [hk']
      · simp [hk', ih]

@[simp] theorem overwriteEpisodicPayload_chat (st : Store) (pid : String) (pc : Val) (md : Dict) :
    (overwriteEpisodicPayload st pid pc md).chat = st.chat := rfl

@[simp] theorem overwriteChatPayload_episodic (st : Store) (pid : String) (pc : Val) (md : Dict) :
    (overwriteChatPayload st pid pc md).episodic = st.episodic := rfl

theorem retrieveFirst_id {pts : List Point} {pid : String} {p : Point}
    (h : retrieveFirst pts pid = some p) : p.id = pid := by
  unfold retrieveFirst at h
  cases hf : pts.filter (fun p => p.id == pid) with
  | nil => rw [hf] at h; simp at h
  | cons a t =>
    rw [hf] at h
    simp only [List.head?] at h
    cases h
    have ha : p ∈ pts.filter (fun p => p.id == pid) := by
      rw [hf]; exact List.mem_cons_self _ _
    simpa using List.of_mem_filter ha

theorem retrieveFirst_map {pts : List Point} (f : Point → Point)
    (hf : ∀ p, (f p).id = p.id) (pid : String) :
    retrieveFirst (pts.map f) pid = (retrieveFirst pts pid).map f := by
  unfold retrieveFirst
  have hp : ((fun p : Point => p.id == pid) ∘ f) = (fun p : Point => p.id == pid) := by
    funext p
    simp [Function.comp, hf]
  have : (pts.map f).filter (fun p => p.id == pid)
      = (pts.filter (fun p => p.id == pid)).map f := by
    rw [List.filter_map, hp]
  rw [this, List.head?_map]

theorem sortDescByWhen_mem {pts : List Point} {p : Point} :
    p ∈ sortDescByWhen pts ↔ p ∈ pts := by
  unfold sortDescByWhen; exact List.mem_insertionSort whenDesc

theorem sortDescByWhen_eq_nil {pts : List Point} (h : sortDescByWhen pts = []) :
    pts = [] := by
  have := List.length_insertionSort whenDesc pts
  unfold sortDescByWhen at h
  rw [h] at this
  exact List.length_eq_zero.mp this.symm

theorem sortDescByWhen_head_max {pts : List Point} {tp : Point} {rest : List Point}
    (h : sortDescByWhen pts = tp :: rest) :
    ∀ q ∈ pts, whenOf q.payload_metadata ≤ whenOf tp.payload_metadata := by
  intro q hq
  have hs : List.Sorted whenDesc (tp :: rest) := by
    rw [← h]; exact List.sorted_insertionSort whenDesc pts
  have hq' : q ∈ tp :: rest := by
    rw [← h, sortDescByWhen_mem]; exact hq
  rcases List.mem_cons.mp hq' with rfl | hq''
  · exact le_refl _
  · exact List.rel_of_sorted_cons hs q hq''

/-- Helper: the fully-determined successful run of the mandatory
reconciliation steps. -/
theorem before_main_ok {user chat_id user_text bot_text : String} {now : Int}
    {st : Store} {tp : Point} {rest : List Point} {cp : Point}
    (hsort : sortDescByWhen (turnQuery st user chat_id user_text) = tp :: rest)
    (hc : retrieveFirst st.chat chat_id = some cp) :
    before_main user chat_id user_text bot_text now st =
      Except.ok (bot_text,
        overwriteChatPayload
          (overwriteEpisodicPayload st tp.id
            (if tp.page_content == Val.null then Val.str "" else tp.page_content)
            (dictSet tp.payload_metadata "bot" (Val.str bot_text)))
          cp.id cp.page_content
          (dictSet cp.payload_metadata "last_update" (Val.int now))) := by
  have hne : turnQuery st user chat_id user_text ≠ [] := by
    intro h
    rw [h] at hsort
    simp [sortDescByWhen, List.insertionSort] at hsort
  unfold before_main
  simp only [List.isEmpty_eq_false.mpr hne, Bool.false_eq_true, if_false, hsort,
    overwriteEpisodicPayload_chat, hc]

/-- C5 (confirmed). The Turn Reconciler queries episodic records matching
`(chat_id, user_id, text)` with a result window of 10, sorts them descending
by `when` and sets the `bot` field of the record with the latest `when`; an
empty query returns the message unchanged with no store write and no error.
(The best-effort auto-naming sub-step that precedes these mandatory steps is
treated separately; see the auto-naming theorem.) -/
theorem before_main_reconciliation (user chat_id user_text bot_text : String)
    (now : Int) (st : Store) :
    (turnQuery st user chat_id user_text = [] →
      before_main user chat_id user_text bot_text now st = Except.ok (bot_text, st)) ∧
    (∀ tp rest, sortDescByWhen (turnQuery st user chat_id user_text) = tp :: rest →
      tp ∈ turnQuery st user chat_id user_text ∧
      (∀ q ∈ turnQuery st user chat_id user_text,
        whenOf q.payload_metadata ≤ whenOf tp.payload_metadata) ∧
      (∀ m st', before_main user chat_id user_text bot_text now st = Except.ok (m, st') →
        m = bot_text ∧
        st'.episodic = (overwriteEpisodicPayload st tp.id
          (if tp.page_content == Val.null then Val.str "" else tp.page_content)
          (dictSet tp.payload_metadata "bot" (Val.str bot_text))).episodic)) := by
  constructor
  · intro h
    unfold before_main
    simp [h]
  · intro tp rest hsort
    refine ⟨?_, sortDescByWhen_head_max hsort, ?_⟩
    · rw [← sortDescByWhen_mem, hsort]; exact List.mem_cons_self _ _
    · intro m st' hok
      cases hc : retrieveFirst st.chat chat_id with
      | none =>
        exfalso
        have hne : turnQuery st user chat_id user_text ≠ [] := by
          intro h
          rw [h] at hsort
          simp [sortDescByWhen, List.insertionSort] at hsort
        unfold before_main at hok
        simp only [List.isEmpty_eq_false.mpr hne, if_false, hsort] at hok
        rw [overwriteEpisodicPayload_chat, hc] at hok
        exact Except.noConfusion hok
      | some cp =>
        rw [before_main_ok hsort hc] at hok
        injection hok with h1
        injection h1 with h2 h3
        subst h2; subst h3
        exact ⟨rfl, rfl⟩

/-- Overwriting a chat point's payload rewrites exactly the retrieved point. -/
theorem retrieveFirst_overwriteChat {st : Store} {cid : String} {cp : Point}
    (pc : Val) (md : Dict) (hc : retrieveFirst st.chat cid = some cp) :
    retrieveFirst (overwriteChatPayload st cp.id pc md).chat cid
      = some { cp with page_content := pc, payload_metadata := md } := by
  unfold overwriteChatPayload
  have hf : ∀ p : Point,
      ((fun p => if p.id == cp.id then { p with page_content := pc, payload_metadata := md }
                 else p) p).id = p.id := by
    intro p
    by_cases h : p.id == cp.id <;> simp [h]
  rw [retrieveFirst_map _ hf cid, hc]
  simp

/-- The session's `name` field as read back through a fresh retrieve. -/
def nameOf (st : Store) (cid : String) : Option Val :=
  (retrieveFirst st.chat cid).bind (fun p => dictGet p.payload_metadata "name")

/-- The session's `last_update` field as read back through a fresh retrieve. -/
def lastUpdateOf (st : Store) (cid : String) : Option Val :=
  (retrieveFirst st.chat cid).bind (fun p => dictGet p.payload_metadata "last_update")

/-- C7 (confirmed). When the auto-naming sub-step fails (LLM raise or failed
read), the exception is caught, the session name is untouched, and the
mandatory reconciliation (set `bot`, update `last_update`) still runs; when
the name equals the default and the LLM returns a title with a non-empty
sanitized form, the sub-step overwrites the name with that title exactly once
(a single `overwrite_payload` call). -/
theorem autonaming_isolated (llm : String → Except Unit String)
    (default_chat_name user chat_id user_text bot_text : String) (now : Int) (st : Store) :
    (autoNameInner llm default_chat_name chat_id user_text bot_text st = Except.error () →
      before_cat_sends_message llm default_chat_name user chat_id user_text bot_text now st
        = before_main user chat_id user_text bot_text now st) ∧
    (∀ tp rest cp,
      autoNameInner llm default_chat_name chat_id user_text bot_text st = Except.error () →
      sortDescByWhen (turnQuery st user chat_id user_text) = tp :: rest →
      retrieveFirst st.chat chat_id = some cp →
      ∃ st', before_cat_sends_message llm default_chat_name user chat_id user_text bot_text now st
          = Except.ok (bot_text, st') ∧
        nameOf st' chat_id = nameOf st chat_id ∧
        lastUpdateOf st' chat_id = some (Val.int now) ∧
        st'.episodic = (overwriteEpisodicPayload st tp.id
          (if tp.page_content == Val.null then Val.str "" else tp.page_content)
          (dictSet tp.payload_metadata "bot" (Val.str bot_text))).episodic) ∧
    (∀ cp g, retrieveFirst st.chat chat_id = some cp →
      dictGetD cp.payload_metadata "name" (Val.str "") = Val.str default_chat_name →
      llm (autoNamePrompt user_text bot_text) = Except.ok g →
      ¬(g = "") → ¬(cleanTitle g = "") →
      autoNameInner llm default_chat_name chat_id user_text bot_text st
        = Except.ok (overwriteChatPayload st cp.id cp.page_content
            (dictSet cp.payload_metadata "name" (Val.str (cleanTitle g)))) ∧
      nameOf (overwriteChatPayload st cp.id cp.page_content
            (dictSet cp.payload_metadata "name" (Val.str (cleanTitle g)))) chat_id
        = some (Val.str (cleanTitle g))) := by
  refine ⟨?_, ?_, ?_⟩
  · intro herr
    unfold before_cat_sends_message
    rw [herr]
  · intro tp rest cp herr hsort hc
    have hfull : before_cat_sends_message llm default_chat_name user chat_id user_text bot_text now st
        = before_main user chat_id user_text bot_text now st := by
      unfold before_cat_sends_message
      rw [herr]
    rw [hfull, before_main_ok hsort hc]
    refine ⟨_, rfl, ?_, ?_, rfl⟩
    · unfold nameOf
      have hc1 : retrieveFirst
          (overwriteEpisodicPayload st tp.id
            (if tp.page_content == Val.null then Val.str "" else tp.page_content)
            (dictSet tp.payload_metadata "bot" (Val.str bot_text))).chat chat_id = some cp := by
        rw [overwriteEpisodicPayload_chat]; exact hc
      rw [retrieveFirst_overwriteChat _ _ hc1, hc]
      simp only [Option.some_bind]
      exact dictGet_dictSet_ne _ _ _ _ (by decide)
    · unfold lastUpdateOf
      have hc1 : retrieveFirst
          (overwriteEpisodicPayload st tp.id
            (if tp.page_content == Val.null then Val.str "" else tp.page_content)
            (dictSet tp.payload_metadata "bot" (Val.str bot_text))).chat chat_id = some cp := by
        rw [overwriteEpisodicPayload_chat]; exact hc
      rw [retrieveFirst_overwriteChat _ _ hc1]
      simp only [Option.some_bind]
      exact dictGet_dictSet_self _ _ _
  · intro cp g hc hname hllm hg hclean
    constructor
    · unfold autoNameInner
      rw [hc]
      simp only [hname, beq_self_eq_true, if_true, hllm]
      have hgb : (g == "") = false := by simp [hg]
      have hcb : (cleanTitle g == "") = false := by simp [hclean]
      simp [hgb, hcb]
    · unfold nameOf
      rw [retrieveFirst_overwriteChat _ _ hc]
      simp only [Option.some_bind]
      exact dictGet_dictSet_self _ _ _

/-! ### Concrete witness data: one chat session `"c"` of user `"u"` with one
open episodic record `"e"` -/

def wChat : Point :=
  ⟨"c", Val.str "New Unnamed Chat",
   [("source", Val.str "u"), ("when", Val.int 0),
    ("content", Val.str "New Unnamed Chat"), ("name", Val.str "New Unnamed Chat"),
    ("deleted", Val.bool false)], []⟩

def wEp : Point :=
  ⟨"e", Val.str "hi",
   [("source", Val.str "u"), ("when", Val.int 5), ("user_id", Val.str "u"),
    ("chat_id", Val.str "c"), ("text", Val.str "hi"), ("bot", Val.str "")], []⟩

def wStore : Store := ⟨[wChat], [wEp], 2⟩

def wStoreNoEp : Store := ⟨[wChat], [], 1⟩

/-- The store after the reconciler has attached the reply `"yo"` at time 7. -/
def wStoreAfter : Store :=
  ⟨[⟨"c", Val.str "New Unnamed Chat",
     [("source", Val.str "u"), ("when", Val.int 0),
      ("content", Val.str "New Unnamed Chat"), ("name", Val.str "New Unnamed Chat"),
      ("deleted", Val.bool false), ("last_update", Val.int 7)], []⟩],
   [⟨"e", Val.str "hi",
     [("source", Val.str "u"), ("when", Val.int 5), ("user_id", Val.str "u"),
      ("chat_id", Val.str "c"), ("text", Val.str "hi"), ("bot", Val.str "yo")], []⟩],
   2⟩

/-- Witness for the reconciliation theorem at the concrete one-turn store. -/
theorem before_main_reconciliation_witness :
    before_main "u" "c" "hi" "yo" 7 wStoreNoEp = Except.ok ("yo", wStoreNoEp) ∧
    (wEp ∈ turnQuery wStore "u" "c" "hi" ∧
      (∀ q ∈ turnQuery wStore "u" "c" "hi",
        whenOf q.payload_metadata ≤ whenOf wEp.payload_metadata)) ∧
    ("yo" = "yo" ∧ wStoreAfter.episodic = (overwriteEpisodicPayload wStore wEp.id
        (if wEp.page_content == Val.null then Val.str "" else wEp.page_content)
        (dictSet wEp.payload_metadata "bot" (Val.str "yo"))).episodic) := by
  refine ⟨(before_main_reconciliation "u" "c" "hi" "yo" 7 wStoreNoEp).1 rfl, ?_, ?_⟩
  · obtain ⟨h1, h2, _⟩ := (before_main_reconciliation "u" "c" "hi" "yo" 7 wStore).2 wEp [] rfl
    exact ⟨h1, h2⟩
  · exact ((before_main_reconciliation "u" "c" "hi" "yo" 7 wStore).2 wEp [] rfl).2.2
      "yo" wStoreAfter rfl

def llmFailW : String → Except Unit String := fun _ => Except.error ()

def llmOkW : String → Except Unit String := fun _ => Except.ok "  Nice Title  "

/-- Witness for the auto-naming theorem: a raising LLM leaves the name alone
but the mandatory steps still run; a successful LLM renames the default chat. -/
theorem autonaming_isolated_witness :
    (before_cat_sends_message llmFailW "New Unnamed Chat" "u" "c" "hi" "yo" 7 wStore
      = before_main "u" "c" "hi" "yo" 7 wStore) ∧
    (∃ st', before_cat_sends_message llmFailW "New Unnamed Chat" "u" "c" "hi" "yo" 7 wStore
        = Except.ok ("yo", st') ∧
      nameOf st' "c" = nameOf wStore "c" ∧
      lastUpdateOf st' "c" = some (Val.int 7) ∧
      st'.episodic = (overwriteEpisodicPayload wStore wEp.id
        (if wEp.page_content == Val.null then Val.str "" else wEp.page_content)
        (dictSet wEp.payload_metadata "bot" (Val.str "yo"))).episodic) ∧
    (autoNameInner llmOkW "New Unnamed Chat" "c" "hi" "yo" wStore
        = Except.ok (overwriteChatPayload wStore wChat.id wChat.page_content
            (dictSet wChat.payload_metadata "name" (Val.str (cleanTitle "  Nice Title  ")))) ∧
      nameOf (overwriteChatPayload wStore wChat.id wChat.page_content
            (dictSet wChat.payload_metadata "name" (Val.str (cleanTitle "  Nice Title  ")))) "c"
        = some (Val.str (cleanTitle "  Nice Title  "))) :=
  ⟨(autonaming_isolated llmFailW "New Unnamed Chat" "u" "c" "hi" "yo" 7 wStore).1 rfl,
   (autonaming_isolated llmFailW "New Unnamed Chat" "u" "c" "hi" "yo" 7 wStore).2.1
     wEp [] wChat rfl rfl rfl,
   (autonaming_isolated llmOkW "New Unnamed Chat" "u" "c" "hi" "yo" 7 wStore).2.2
     wChat "  Nice Title  " rfl rfl rfl (by decide) (by decide)⟩

/-! ## The creation endpoint: cap characterization -/

/-- The point a successful `create_chat` stores. -/
def createdPoint (embed : Val → List Int) (user : String) (now : Int)
    (default_chat_name : String) (reqContent : Val) (reqNested : Dict)
    (st : Store) : Point :=
  ⟨toString st.nextId,
   createContentForEmbedding user now default_chat_name reqContent reqNested,
   createPayload user now default_chat_name reqContent reqNested,
   embed (createContentForEmbedding user now default_chat_name reqContent reqNested)⟩

/-- Helper: every successful branch of `create_chat` appends the same new
point and returns it verbatim. -/
theorem create_chat_success {embed : Val → List Int} {user : String} {now : Int}
    {max_chats : Int} {default_chat_name : String} {reqContent : Val} {reqNested : Dict}
    {st : Store}
    (h : scrollChat st [("source", Val.str user)] 10000 = [] ∨ max_chats = -1 ∨
      (matchedPointsCount (scrollChat st [("source", Val.str user)] 10000) : Int) < max_chats) :
    create_chat embed user now max_chats default_chat_name reqContent reqNested st
      = Except.ok
          (⟨(createdPoint embed user now default_chat_name reqContent reqNested st).page_content,
            (createdPoint embed user now default_chat_name reqContent reqNested st).payload_metadata,
            (createdPoint embed user now default_chat_name reqContent reqNested st).id,
            (createdPoint embed user now default_chat_name reqContent reqNested st).vector⟩,
           { st with
              chat := st.chat ++ [createdPoint embed user now default_chat_name reqContent reqNested st],
              nextId := st.nextId + 1 }) := by
  by_cases he : scrollChat st [("source", Val.str user)] 10000 = []
  · unfold create_chat
    simp [he, addChatPoint, createdPoint]
  · have hcond : ¬(max_chats ≠ -1 ∧
        (matchedPointsCount (scrollChat st [("source", Val.str user)] 10000) : Int) ≥ max_chats) := by
      rcases h with h | h | h
      · exact absurd h he
      · intro hc; exact hc.1 h
      · intro hc; exact absurd hc.2 (not_le.mpr h)
    unfold create_chat
    simp only [List.isEmpty_eq_false.mpr he, Bool.false_eq_true, if_false]
    rw [if_neg hcond]
    simp [addChatPoint, createdPoint]

/-- Helper: the cap error fires exactly when the scroll is non-empty, the cap
is enabled, and the surviving count reaches it. -/
theorem create_chat_error {embed : Val → List Int} {user : String} {now : Int}
    {max_chats : Int} {default_chat_name : String} {reqContent : Val} {reqNested : Dict}
    {st : Store}
    (hne : scrollChat st [("source", Val.str user)] 10000 ≠ [])
    (hmax : max_chats ≠ -1)
    (hge : (matchedPointsCount (scrollChat st [("source", Val.str user)] 10000) : Int) ≥ max_chats) :
    create_chat embed user now max_chats default_chat_name reqContent reqNested st
      = Except.error ("Too many chats created, you can have a maximum of " ++ toString max_chats) := by
  unfold create_chat
  simp only [List.isEmpty_eq_false.mpr hne, Bool.false_eq_true, if_false]
  rw [if_pos ⟨hmax, hge⟩]

/-- C1 (corrected). The capacity error fires only when the caller's scroll of
stored sessions (deleted ones included) is non-empty: in that case, with
`max_chats != -1` and the non-deleted count at or above the cap, the endpoint
fails with HTTP 400 and the exact message; in every other case (empty scroll,
`max_chats == -1`, or count below the cap) it inserts a new session point and
returns it verbatim, with the server-assigned id and the embedding vector.
The original claim's "fails whenever count >= max_chats" is false when the
user has no stored points at all (see the counterexample). -/
theorem create_chat_capacity_amended (embed : Val → List Int) (user : String) (now : Int)
    (max_chats : Int) (default_chat_name : String) (reqContent : Val) (reqNested : Dict)
    (st : Store) :
    (scrollChat st [("source", Val.str user)] 10000 ≠ [] → max_chats ≠ -1 →
      (matchedPointsCount (scrollChat st [("source", Val.str user)] 10000) : Int) ≥ max_chats →
      create_chat embed user now max_chats default_chat_name reqContent reqNested st
        = Except.error ("Too many chats created, you can have a maximum of " ++ toString max_chats)) ∧
    (scrollChat st [("source", Val.str user)] 10000 = [] ∨ max_chats = -1 ∨
      (matchedPointsCount (scrollChat st [("source", Val.str user)] 10000) : Int) < max_chats →
      create_chat embed user now max_chats default_chat_name reqContent reqNested st
        = Except.ok
          (⟨(createdPoint embed user now default_chat_name reqContent reqNested st).page_content,
            (createdPoint embed user now default_chat_name reqContent reqNested st).payload_metadata,
            (createdPoint embed user now default_chat_name reqContent reqNested st).id,
            (createdPoint embed user now default_chat_name reqContent reqNested st).vector⟩,
           { st with
              chat := st.chat ++ [createdPoint embed user now default_chat_name reqContent reqNested st],
              nextId := st.nextId + 1 })) :=
  ⟨fun hne hmax hge => create_chat_error hne hmax hge,
   fun h => create_chat_success h⟩

def embedW : Val → List Int := fun _ => []

/-- Witness for the amended capacity theorem: with one active session and
`max_chats = 1` a further create fails with the exact message; with
`max_chats = -1` it succeeds. -/
theorem create_chat_capacity_amended_witness :
    create_chat embedW "u" 3 1 "New Unnamed Chat" (Val.str "") [] wStoreNoEp
      = Except.error "Too many chats created, you can have a maximum of 1" ∧
    create_chat embedW "u" 3 (-1) "New Unnamed Chat" (Val.str "") [] wStoreNoEp
      = Except.ok
          (⟨(createdPoint embedW "u" 3 "New Unnamed Chat" (Val.str "") [] wStoreNoEp).page_content,
            (createdPoint embedW "u" 3 "New Unnamed Chat" (Val.str "") [] wStoreNoEp).payload_metadata,
            (createdPoint embedW "u" 3 "New Unnamed Chat" (Val.str "") [] wStoreNoEp).id,
            (createdPoint embedW "u" 3 "New Unnamed Chat" (Val.str "") [] wStoreNoEp).vector⟩,
           { wStoreNoEp with
              chat := wStoreNoEp.chat ++ [createdPoint embedW "u" 3 "New Unnamed Chat" (Val.str "") [] wStoreNoEp],
              nextId := wStoreNoEp.nextId + 1 }) :=
  ⟨(create_chat_capacity_amended embedW "u" 3 1 "New Unnamed Chat" (Val.str "") [] wStoreNoEp).1
      (by decide) (by decide) (by decide),
   (create_chat_capacity_amended embedW "u" 3 (-1) "New Unnamed Chat" (Val.str "") [] wStoreNoEp).2
      (Or.inr (Or.inl rfl))⟩

/-- C1 counterexample: with `max_chats = 0` and a caller owning no stored
sessions at all, the active count (0) is at or above the cap, yet the create
succeeds — the claimed "fails whenever count >= max_chats" is false. -/
theorem create_chat_zero_cap_cex :
    specActiveCount ⟨[], [], 0⟩ "u" = 0 ∧ ¬((0 : Int) < 0) ∧
    (create_chat embedW "u" 3 0 "New Unnamed Chat" (Val.str "") [] ⟨[], [], 0⟩).isOk = true := by
  refine ⟨rfl, by decide, ?_⟩
  rfl

/-- C10 (confirmed). When the caller's scroll over the chat collection
returns no points at all, `create_chat` inserts and returns the new session
without any cap check, for every value of `max_chats` (including 0). -/
theorem create_chat_no_points_no_cap (embed : Val → List Int) (user : String) (now : Int)
    (max_chats : Int) (default_chat_name : String) (reqContent : Val) (reqNested : Dict)
    (st : Store)
    (h : scrollChat st [("source", Val.str user)] 10000 = []) :
    create_chat embed user now max_chats default_chat_name reqContent reqNested st
      = Except.ok
          (⟨(createdPoint embed user now default_chat_name reqContent reqNested st).page_content,
            (createdPoint embed user now default_chat_name reqContent reqNested st).payload_metadata,
            (createdPoint embed user now default_chat_name reqContent reqNested st).id,
            (createdPoint embed user now default_chat_name reqContent reqNested st).vector⟩,
           { st with
              chat := st.chat ++ [createdPoint embed user now default_chat_name reqContent reqNested st],
              nextId := st.nextId + 1 }) :=
  create_chat_success (Or.inl h)

/-- Witness: with `max_chats = 0` and an empty store the first creation
succeeds. -/
theorem create_chat_no_points_no_cap_witness :
    create_chat embedW "u" 3 0 "New Unnamed Chat" (Val.str "") [] ⟨[], [], 0⟩
      = Except.ok
          (⟨(createdPoint embedW "u" 3 "New Unnamed Chat" (Val.str "") [] ⟨[], [], 0⟩).page_content,
            (createdPoint embedW "u" 3 "New Unnamed Chat" (Val.str "") [] ⟨[], [], 0⟩).payload_metadata,
            (createdPoint embedW "u" 3 "New Unnamed Chat" (Val.str "") [] ⟨[], [], 0⟩).id,
            (createdPoint embedW "u" 3 "New Unnamed Chat" (Val.str "") [] ⟨[], [], 0⟩).vector⟩,
           { Store.mk [] [] 0 with
              chat := [] ++ [createdPoint embedW "u" 3 "New Unnamed Chat" (Val.str "") [] ⟨[], [], 0⟩],
              nextId := 0 + 1 }) :=
  create_chat_no_points_no_cap embedW "u" 3 0 "New Unnamed Chat" (Val.str "") [] ⟨[], [], 0⟩ rfl

/-- C9 (confirmed). The nested frontend metadata is merged over the
server-assigned fields: a caller authenticated as `"alice"` can store and
receive a session whose `source` is `"mallory"`, with overridden `when` and
`deleted` values as well. -/
theorem create_chat_source_override :
    create_chat embedW "alice" 0 4 "New Unnamed Chat" (Val.str "")
        [("source", Val.str "mallory"), ("when", Val.int 99), ("deleted", Val.bool true)]
        ⟨[], [], 0⟩
      = Except.ok
          (⟨Val.str "New Unnamed Chat",
            [("source", Val.str "mallory"), ("when", Val.int 99),
             ("content", Val.str "New Unnamed Chat"), ("deleted", Val.bool true),
             ("name", Val.str "New Unnamed Chat")],
            "0", []⟩,
           ⟨[⟨"0", Val.str "New Unnamed Chat",
              [("source", Val.str "mallory"), ("when", Val.int 99),
               ("content", Val.str "New Unnamed Chat"), ("deleted", Val.bool true),
               ("name", Val.str "New Unnamed Chat")], []⟩], [], 1⟩) ∧
    ¬(Val.str "mallory" = Val.str "alice") := by
  exact ⟨rfl, by decide⟩

/-! ## The cap is not a layer-wide invariant -/

theorem length_filter_mono {p q : α → Bool} {l : List α}
    (h : ∀ a ∈ l, p a = true → q a = true) :
    (l.filter p).length ≤ (l.filter q).length := by
  induction l with
  | nil => simp
  | cons a t ih =>
    have ih' := ih (fun x hx => h x (List.mem_cons_of_mem a hx))
    by_cases hp : p a = true
    · have hq := h a (List.mem_cons_self a t) hp
      simp only [List.filter_cons, hp, hq, if_true, List.length_cons]
      exact Nat.succ_le_succ ih'
    · simp only [List.filter_cons, hp, if_false]
      cases hq : q a
      · simp only [Bool.false_eq_true, if_false]
        exact ih'
      · simp only [if_true, List.length_cons]
        exact Nat.le_succ_of_le ih'

theorem nodup_ids_filter {l : List Point} (f : Point → Bool)
    (h : (l.map Point.id).Nodup) : ((l.filter f).map Point.id).Nodup :=
  List.Nodup.sublist ((l.filter_sublist).map Point.id) h

/-- Under unique point ids, the id-set detour of `create_chat`'s count equals
the direct count of non-deleted points. -/
theorem matchedPointsCount_eq {points : List Point}
    (hnd : (points.map Point.id).Nodup) :
    matchedPointsCount points
      = (points.filter (fun p =>
          !(dictGetD p.payload_metadata "deleted" (Val.bool false)).truthy)).length := by
  simp only [matchedPointsCount]
  congr 1
  apply List.filter_congr
  intro p hp
  have hkey : (((points.filter
      (fun p => (dictGetD p.payload_metadata "deleted" (Val.bool false)).truthy)).map Point.id).contains p.id)
      = (dictGetD p.payload_metadata "deleted" (Val.bool false)).truthy := by
    cases hd : (dictGetD p.payload_metadata "deleted" (Val.bool false)).truthy
    · rw [Bool.eq_false_iff]
      intro hc
      have hmem : p.id ∈ (points.filter
          (fun p => (dictGetD p.payload_metadata "deleted" (Val.bool false)).truthy)).map Point.id :=
        List.elem_iff.mp hc
      obtain ⟨q, hq, hqid⟩ := List.mem_map.mp hmem
      have hq' : q ∈ points := List.mem_of_mem_filter hq
      have hqd := List.of_mem_filter hq
      have : q = p := List.inj_on_of_nodup_map hnd hq' hp hqid
      rw [this] at hqd
      rw [hqd] at hd
      exact Bool.noConfusion hd
    · apply List.elem_iff.mpr
      apply List.mem_map.mpr
      refine ⟨p, List.mem_filter.mpr ⟨hp, hd⟩, rfl⟩
  rw [hkey]

/-- The scroll window is immaterial for stores of at most 10000 points. -/
theorem scrollChat_of_small (st : Store) (flt : Dict) (hlen : st.chat.length ≤ 10000) :
    scrollChat st flt 10000 = st.chat.filter (fun p => matchesFilter flt p.payload_metadata) :=
  List.take_of_length_le (le_trans (List.length_filter_le _ _) hlen)

theorem specActiveCount_le_matched (st : Store) (user : String)
    (hnd : (st.chat.map Point.id).Nodup) (hlen : st.chat.length ≤ 10000) :
    specActiveCount st user
      ≤ matchedPointsCount (scrollChat st [("source", Val.str user)] 10000) := by
  rw [scrollChat_of_small st _ hlen, matchedPointsCount_eq (nodup_ids_filter _ hnd)]
  have hpred : (fun p : Point => matchesFilter [("source", Val.str user)] p.payload_metadata)
      = (fun p : Point => dictGet p.payload_metadata "source" == some (Val.str user)) := by
    funext p
    simp [matchesFilter]
  rw [hpred]
  unfold specActiveCount
  apply length_filter_mono
  intro p _ hp
  have : dictGetD p.payload_metadata "deleted" (Val.bool false) = Val.bool false :=
    by simpa using hp
  rw [this]
  rfl

theorem specActiveCount_append_le (st : Store) (user : String) (cp : Point) (n : Nat) :
    specActiveCount { st with chat := st.chat ++ [cp], nextId := n } user
      ≤ specActiveCount st user + 1 := by
  unfold specActiveCount
  simp only [List.filter_append, List.length_append]
  have h1 : (((([cp] : List Point).filter
      (fun p => dictGet p.payload_metadata "source" == some (Val.str user)))).filter
      (fun p => dictGetD p.payload_metadata "deleted" (Val.bool false) == Val.bool false)).length
      ≤ 1 := by
    calc _ ≤ ((([cp] : List Point).filter
        (fun p => dictGet p.payload_metadata "source" == some (Val.str user)))).length :=
          List.length_filter_le _ _
      _ ≤ ([cp] : List Point).length := List.length_filter_le _ _
      _ = 1 := rfl
  omega

/-- C2 (corrected). The cap is not an invariant of the whole layer: the
Session Resolver's implicit creation performs no cap check at all (see the
counterexample, where a reachable store holds 2 active sessions under
`max_chats = 1`).  What holds is the per-operation bound on the explicit
create endpoint: when the caller's scroll is non-empty, the cap is enabled
and the create succeeds, the caller's active-session count afterwards is at
most `max_chats` (under unique point ids and a store within the scroll
window). -/
theorem create_chat_caller_cap_amended (embed : Val → List Int) (user : String)
    (now : Int) (max_chats : Int) (default_chat_name : String)
    (reqContent : Val) (reqNested : Dict) (st : Store) (pt : MemoryPoint) (st' : Store)
    (hnd : (st.chat.map Point.id).Nodup)
    (hlen : st.chat.length ≤ 10000)
    (hmax : max_chats ≠ -1)
    (hne : scrollChat st [("source", Val.str user)] 10000 ≠ [])
    (hok : create_chat embed user now max_chats default_chat_name reqContent reqNested st
      = Except.ok (pt, st')) :
    (specActiveCount st' user : Int) ≤ max_chats := by
  have hcnt : (matchedPointsCount (scrollChat st [("source", Val.str user)] 10000) : Int)
      < max_chats := by
    by_contra hge
    push_neg at hge
    rw [create_chat_error hne hmax hge] at hok
    exact Except.noConfusion hok
  have hshape := @create_chat_success embed user now max_chats default_chat_name
    reqContent reqNested st (Or.inr (Or.inr hcnt))
  rw [hshape] at hok
  have hst' : st' = { st with
      chat := st.chat ++ [createdPoint embed user now default_chat_name reqContent reqNested st],
      nextId := st.nextId + 1 } := by
    injection hok with h1
    injection h1 with _ h2
    exact h2.symm
  subst hst'
  have h1 := specActiveCount_append_le st user
    (createdPoint embed user now default_chat_name reqContent reqNested st) (st.nextId + 1)
  have h2 := specActiveCount_le_matched st user hnd hlen
  omega

/-- Witness for the amended cap theorem: one active session, `max_chats = 5`,
a successful create keeps the count within the cap. -/
theorem create_chat_caller_cap_amended_witness :
    (specActiveCount { wStoreNoEp with
        chat := wStoreNoEp.chat ++ [createdPoint embedW "u" 3 "New Unnamed Chat" (Val.str "") [] wStoreNoEp],
        nextId := wStoreNoEp.nextId + 1 } "u" : Int) ≤ 5 :=
  create_chat_caller_cap_amended embedW "u" 3 5 "New Unnamed Chat" (Val.str "") [] wStoreNoEp
    ⟨(createdPoint embedW "u" 3 "New Unnamed Chat" (Val.str "") [] wStoreNoEp).page_content,
     (createdPoint embedW "u" 3 "New Unnamed Chat" (Val.str "") [] wStoreNoEp).payload_metadata,
     (createdPoint embedW "u" 3 "New Unnamed Chat" (Val.str "") [] wStoreNoEp).id,
     (createdPoint embedW "u" 3 "New Unnamed Chat" (Val.str "") [] wStoreNoEp).vector⟩
    { wStoreNoEp with
      chat := wStoreNoEp.chat ++ [createdPoint embedW "u" 3 "New Unnamed Chat" (Val.str "") [] wStoreNoEp],
      nextId := wStoreNoEp.nextId + 1 }
    (by decide) (by decide) (by decide) (by decide)
    (create_chat_success (Or.inr (Or.inr (by decide))))

/-! ### A reachable store exceeding the cap -/

def cexMP : MemoryPoint :=
  ⟨Val.str "A",
   [("source", Val.str "u"), ("when", Val.int 0), ("content", Val.str "A"),
    ("name", Val.str "A"), ("deleted", Val.bool false)], "0", []⟩

def cexStore1 : Store :=
  ⟨[⟨"0", Val.str "A",
     [("source", Val.str "u"), ("when", Val.int 0), ("content", Val.str "A"),
      ("name", Val.str "A"), ("deleted", Val.bool false)], []⟩], [], 1⟩

def cexStore2 : Store :=
  ⟨[⟨"0", Val.str "A",
     [("source", Val.str "u"), ("when", Val.int 0), ("content", Val.str "A"),
      ("name", Val.str "A"), ("deleted", Val.bool false)], []⟩,
    ⟨"1", Val.str "New Unnamed Chat",
     [("source", Val.str "u"), ("when", Val.int 0),
      ("content", Val.str "New Unnamed Chat"), ("name", Val.str "New Unnamed Chat"),
      ("deleted", Val.bool false)], []⟩], [], 2⟩

/-- C2 counterexample: under `max_chats = 1`, creating one chat named `"A"`
and then sending a message without a `chat_id` (the Session Resolver creates
a default chat with no cap check) reaches a store where user `"u"` owns 2
active sessions. -/
theorem cap_invariant_cex :
    Reach embedW 1 "New Unnamed Chat" cexStore2 ∧
    specActiveCount cexStore2 "u" = 2 ∧ ¬((2 : Int) ≤ 1) := by
  refine ⟨?_, rfl, by decide⟩
  exact Reach.resolve "u" 0 cexStore1 "1" cexStore2
    (Reach.create "u" 0 (Val.str "") [("name", Val.str "A")] ⟨[], [], 0⟩ cexMP cexStore1
      Reach.init rfl)
    rfl

/-! ## The Session Resolver reuses the LAST default-named session -/

/-- The resolver loop's survival predicate: not deleted and default-named. -/
def defaultActive (default_chat_name : String) (p : Point) : Bool :=
  !(dictGetD p.payload_metadata "deleted" (Val.bool false)).truthy
    && pyEqStr (dictGet p.payload_metadata "name") default_chat_name

theorem fastReplyStep_eq (default_chat_name : String) (acc : Option String) (p : Point) :
    fastReplyStep default_chat_name acc p
      = if defaultActive default_chat_name p then some p.id else acc := by
  unfold fastReplyStep defaultActive
  by_cases h1 : (dictGetD p.payload_metadata "deleted" (Val.bool false)).truthy
  · simp [h1]
  · by_cases h2 : pyEqStr (dictGet p.payload_metadata "name") default_chat_name
    · simp [h1, h2]
    · simp [h1, h2]

theorem foldl_lastMatch (f : Point → Bool) (l : List Point) :
    ∀ init : Option String,
      l.foldl (fun acc p => if f p then some p.id else acc) init
        = match (l.filter f).getLast? with
          | some p => some p.id
          | none => init := by
  induction l with
  | nil => intro init; simp
  | cons a t ih =>
    intro init
    rw [List.foldl_cons, ih]
    by_cases hf : f a
    · simp only [hf, if_true, List.filter_cons, if_pos rfl]
      cases hlast : (t.filter f).getLast? with
      | none =>
        have ht : t.filter f = [] := by
          cases hfil : t.filter f with
          | nil => rfl
          | cons b l' => rw [hfil] at hlast; simp [List.getLast?_concat] at hlast
        rw [ht]
        rfl
      | some p =>
        cases hfil : t.filter f with
        | nil => rw [hfil] at hlast; exact Option.noConfusion hlast
        | cons b l' =>
          rw [hfil] at hlast
          rw [List.getLast?_cons_cons, hlast]
    · simp only [hf, if_false, List.filter_cons, Bool.false_eq_true]

/-- C3 (corrected). When the user owns at least one non-deleted session whose
name equals the configured default, the resolver sets the working `chat_id`
to the id of the LAST such session in the queried result list (the loop keeps
overwriting without breaking), not the first, and creates no new session. -/
theorem fast_reply_last_match_amended (embed : Val → List Int) (user : String)
    (now : Int) (default_chat_name : String) (st : Store) (p : Point)
    (h : ((scrollChat st [("source", Val.str user)] 10000).filter
        (defaultActive default_chat_name)).getLast? = some p) :
    fast_reply embed user now default_chat_name st = (p.id, st) := by
  unfold fast_reply
  have hstep : fastReplyStep default_chat_name
      = fun acc q => if defaultActive default_chat_name q then some q.id else acc := by
    funext acc q
    exact fastReplyStep_eq default_chat_name acc q
  rw [hstep]
  simp only [foldl_lastMatch, h]

def cexStore3 : Store :=
  ⟨[⟨"0", Val.str "New Unnamed Chat",
     [("source", Val.str "u"), ("when", Val.int 0),
      ("content", Val.str "New Unnamed Chat"), ("name", Val.str "New Unnamed Chat"),
      ("deleted", Val.bool false)], []⟩,
    ⟨"1", Val.str "New Unnamed Chat",
     [("source", Val.str "u"), ("when", Val.int 1),
      ("content", Val.str "New Unnamed Chat"), ("name", Val.str "New Unnamed Chat"),
      ("deleted", Val.bool false)], []⟩], [], 2⟩

/-- C3 counterexample: with two non-deleted default-named sessions `"0"` and
`"1"` in query order, the resolver picks `"1"` — the first matching session
is `"0"`, so "first match wins" is false (no new session is created). -/
theorem fast_reply_first_match_cex :
    (fast_reply embedW "u" 7 "New Unnamed Chat" cexStore3).1 = "1" ∧
    ((scrollChat cexStore3 [("source", Val.str "u")] 10000).filter
        (defaultActive "New Unnamed Chat")).head?.map Point.id = some "0" ∧
    ¬("1" = "0") ∧
    (fast_reply embedW "u" 7 "New Unnamed Chat" cexStore3).2 = cexStore3 :=
  ⟨rfl, rfl, by decide, rfl⟩

/-- Witness: the amended resolver theorem applied at the two-session store. -/
theorem fast_reply_last_match_amended_witness :
    fast_reply embedW "u" 7 "New Unnamed Chat" cexStore3
      = (Point.id ⟨"1", Val.str "New Unnamed Chat",
          [("source", Val.str "u"), ("when", Val.int 1),
           ("content", Val.str "New Unnamed Chat"), ("name", Val.str "New Unnamed Chat"),
           ("deleted", Val.bool false)], []⟩, cexStore3) :=
  fast_reply_last_match_amended embedW "u" 7 "New Unnamed Chat" cexStore3
    ⟨"1", Val.str "New Unnamed Chat",
     [("source", Val.str "u"), ("when", Val.int 1),
      ("content", Val.str "New Unnamed Chat"), ("name", Val.str "New Unnamed Chat"),
      ("deleted", Val.bool false)], []⟩ rfl

/-! ## Rename: a missing id raises instead of returning false -/

/-- C4 (code bug). The rename endpoint's docstring promises `False` when `the
chat does not exist`, but `vector_db.retrieve(...)` returns only existing
points, so the `[0]` indexing raises `IndexError` on a missing id (first
conjunct).  The ownership branches do behave as claimed: a `source` mismatch
returns `false` leaving the store unchanged, and an owner rename returns
`true` overwriting only the `name` field while keeping the page content. -/
theorem changeNameChat_missing_raises :
    changeNameChat "missing" "n" "u" wStore = Except.error () ∧
    changeNameChat "c" "n" "intruder" wStore = Except.ok (false, wStore) ∧
    changeNameChat "c" "n" "u" wStore
      = Except.ok (true, overwriteChatPayload wStore "c" wChat.page_content
          (dictSet wChat.payload_metadata "name" (Val.str "n"))) :=
  ⟨rfl, rfl, rfl⟩

/-! ## Delete: store-exception handling and the cascade -/

/-- C8 (corrected). A store-level exception is caught and surfaces as
`false` with the state unchanged; but deleting a non-existent id is NOT an
exception — qdrant's point deletion is idempotent — so the call returns
`true` (see the counterexample).  On the non-raising path the endpoint
returns `true` after removing the session record by id and every episodic
record matching `(user_id, chat_id)`. -/
theorem del_chat_amended (user chat_id : String) (st : Store) (q : Point) :
    (del_chat true user chat_id st = (false, st)) ∧
    ((del_chat false user chat_id st).1 = true) ∧
    (q ∈ (del_chat false user chat_id st).2.chat ↔ q ∈ st.chat ∧ ¬(q.id = chat_id)) ∧
    (q ∈ (del_chat false user chat_id st).2.episodic ↔ q ∈ st.episodic ∧
      ¬(matchesFilter [("user_id", Val.str user), ("chat_id", Val.str chat_id)]
          q.payload_metadata = true)) := by
  refine ⟨rfl, rfl, ?_, ?_⟩
  · simp [del_chat, List.mem_filter]
  · simp [del_chat, List.mem_filter]

/-- C8 counterexample: deleting an id that is not stored raises nothing and
returns `true` with the store unchanged, where the claim demands `false`. -/
theorem del_chat_missing_id_cex :
    retrieveFirst wStoreNoEp.chat "999" = none ∧
    del_chat false "u" "999" wStoreNoEp = (true, wStoreNoEp) :=
  ⟨rfl, rfl⟩

/-! ## History reconstruction -/

def ex312 : List MatchedPoint :=
  [⟨"a", [("when", Val.int 3), ("text", Val.str "t3"), ("bot", Val.str "b3")]⟩,
   ⟨"b", [("when", Val.int 1), ("text", Val.str "t1"), ("bot", Val.str "b1")]⟩,
   ⟨"c", [("when", Val.int 2), ("text", Val.str "t2"), ("bot", Val.str "b2")]⟩]

/-- C6 (corrected). The reconstruction sorts ascending by `when` (a stable
sort producing a sorted permutation; records with `when` = 3,1,2 come out as
1,2,3) and emits per record, in order, a user-turn entry and then an
assistant-turn entry — but both guards require BOTH the `bot` and `text`
keys: the user entry appears iff both keys are present and the text value is
not the empty string (so a record with non-empty `text` but no `bot` key
contributes nothing — see the counterexample), and the assistant entry
appears iff both keys are present and the bot value is not null (an
empty-string bot still yields an assistant entry). -/
theorem build_history_amended :
    (∀ pts : List MatchedPoint, (sortByWhenAsc pts).Perm pts ∧
      List.Sorted whenAsc (sortByWhenAsc pts) ∧
      build_history pts = (sortByWhenAsc pts).flatMap (fun mp => historyEntriesOf mp.metadata)) ∧
    (∀ m : Dict, historyEntriesOf m
      = (if dictContains m "bot" && dictContains m "text"
            && !(dictGetD m "text" Val.null == Val.str "")
         then [HistEntry.user (dictGetD m "text" Val.null)] else [])
        ++ (if dictContains m "bot" && dictContains m "text"
            && !(dictGetD m "bot" Val.null == Val.null)
         then [HistEntry.assistant (dictGetD m "bot" Val.null)] else [])) ∧
    (sortByWhenAsc ex312).map (fun mp => whenOf mp.metadata) = [1, 2, 3] ∧
    build_history ex312
      = [HistEntry.user (Val.str "t1"), HistEntry.assistant (Val.str "b1"),
         HistEntry.user (Val.str "t2"), HistEntry.assistant (Val.str "b2"),
         HistEntry.user (Val.str "t3"), HistEntry.assistant (Val.str "b3")] := by
  refine ⟨?_, ?_, rfl, rfl⟩
  · intro pts
    exact ⟨List.perm_insertionSort whenAsc pts, List.sorted_insertionSort whenAsc pts, rfl⟩
  · intro m
    by_cases hb : dictContains m "bot" <;> by_cases ht : dictContains m "text" <;>
      simp [historyEntriesOf, hb, ht]

def cexHistMeta : Dict := [("when", Val.int 1), ("text", Val.str "hello")]

/-- C6 counterexample: a record whose `text` is the non-empty string
`"hello"` but which lacks the `bot` key produces NO user-turn entry, where
the claim requires one ("a user-turn entry if and only if the text field is a
non-empty string"). -/
theorem build_history_missing_bot_cex :
    dictGet cexHistMeta "text" = some (Val.str "hello") ∧
    ¬(Val.str "hello" = Val.str "") ∧
    build_history [⟨"0", cexHistMeta⟩] = [] :=
  ⟨rfl, by decide, rfl⟩

end SimpleMultiChat
